import Mathlib

/-!
Shallow embedding of the Analysis & Scoring Engine of the question-paper
moderation repository: the `NLPAnalyzer` class in `src/core/nlp_analyzer.py`.

Modelling conventions:
* Python `str` values are Lean `String`s; character-level operations
  (lower-casing, substring search, `\b`-style boundaries) work on `List Char`.
* Python floats are modelled as exact rationals (`ℚ`); every arithmetic
  operation the claims touch is exact in binary floating point as well
  (small integers and halves), except `word_count / 10.0`, which the claims
  only ever evaluate at `word_count = 0` or compare against integer bounds.
* `str.lower()` is `Char.toLower` (ASCII case folding; every lexicon entry
  is ASCII).
* The regular expressions of the four quality-issue detectors are small and
  backtracking-free on their alternation structure, so each is translated to
  a direct decidable scanner (see the individual definitions).
* Suggestion `message` strings are presentational f-strings; the embedding
  keeps every structured field of a suggestion and omits only the rendered
  message text.
-/

namespace QPaper

/-- Character-by-character ASCII lower-casing: model of Python `s.lower()`
for the ASCII questions and lexicon entries the analyzer works with. -/
def pyLower (l : List Char) : List Char := l.map Char.toLower

/-- Python substring containment `needle in hay` on character sequences. -/
def containsSeq (needle : List Char) : List Char → Bool
  | [] => needle.isEmpty
  | c :: rest => needle.isPrefixOf (c :: rest) || containsSeq needle rest

/-- Counts maximal runs of non-whitespace characters; the flag records
whether the previous character was part of a word.
`wordsCount false s.data = len(s.split())` in Python. -/
def wordsCount : Bool → List Char → Nat
  | _, [] => 0
  | inWord, c :: cs =>
    if c.isWhitespace then wordsCount false cs
    else (if inWord then 0 else 1) + wordsCount true cs

/-- Model of Python `len(question.split())`. -/
def wordCount (s : String) : Nat := wordsCount false s.data

/-- Python `max(keys, key=score)` over a nonempty key sequence `x :: l`:
a later key replaces the current best only on a strictly greater score, so
the first key attaining the maximum wins. -/
def pyMaxKey {α : Type} (f : α → Nat) (x : α) : List α → α
  | [] => x
  | y :: ys => if f y > f x then pyMaxKey f y ys else pyMaxKey f x ys

/-- The six Bloom cognitive levels, in the canonical declaration order of
`self.blooms_keywords`. -/
inductive BloomsLevel
  | Knowledge | Comprehension | Application | Analysis | Synthesis | Evaluation
deriving DecidableEq, Repr

/-- The canonical enumeration order of the Bloom levels (Python dict
insertion order of `blooms_keywords`). -/
def bloomsLevels : List BloomsLevel :=
  [.Knowledge, .Comprehension, .Application, .Analysis, .Synthesis, .Evaluation]

/-- Position of a level in the canonical order. -/
def bloomsIdx : BloomsLevel → Nat
  | .Knowledge => 0
  | .Comprehension => 1
  | .Application => 2
  | .Analysis => 3
  | .Synthesis => 4
  | .Evaluation => 5

/-- Python-side name of a Bloom level (the dict keys of `blooms_keywords`). -/
def BloomsLevel.pyName : BloomsLevel → String
  | .Knowledge => "Knowledge"
  | .Comprehension => "Comprehension"
  | .Application => "Application"
  | .Analysis => "Analysis"
  | .Synthesis => "Synthesis"
  | .Evaluation => "Evaluation"

/-- The three difficulty tiers, in the declaration order of
`self.difficulty_keywords`. -/
inductive Difficulty
  | Easy | Medium | Hard
deriving DecidableEq, Repr

/-- The enumeration order Easy, Medium, Hard. -/
def difficulties : List Difficulty := [.Easy, .Medium, .Hard]

/-- Position of a tier in the enumeration order. -/
def diffIdx : Difficulty → Nat
  | .Easy => 0
  | .Medium => 1
  | .Hard => 2

/-- Python-side name of a difficulty tier. -/
def Difficulty.pyName : Difficulty → String
  | .Easy => "Easy"
  | .Medium => "Medium"
  | .Hard => "Hard"

/-- `self.blooms_keywords`: Bloom's-taxonomy keyword lexicon. -/
def bloomsKeywords : BloomsLevel → List String
  | .Knowledge =>
      ["define", "list", "identify", "recall", "name", "label", "match",
       "state", "describe", "relate", "outline", "who", "what", "when", "where"]
  | .Comprehension =>
      ["explain", "describe", "discuss", "interpret", "summarize", "classify",
       "paraphrase", "illustrate", "translate", "recognize", "express", "why", "how"]
  | .Application =>
      ["apply", "solve", "use", "demonstrate", "calculate", "illustrate",
       "show", "complete", "examine", "modify", "relate", "change", "discover"]
  | .Analysis =>
      ["analyze", "compare", "contrast", "distinguish", "examine", "investigate",
       "categorize", "differentiate", "separate", "infer", "arrange", "relationship"]
  | .Synthesis =>
      ["create", "design", "compose", "construct", "formulate", "propose",
       "develop", "integrate", "combine", "compile", "devise", "generate", "hypothesize"]
  | .Evaluation =>
      ["evaluate", "judge", "criticize", "justify", "assess", "appraise",
       "argue", "defend", "support", "value", "critique", "weigh", "recommend"]

/-- `self.difficulty_keywords`: difficulty indicator lexicon. -/
def difficultyKeywords : Difficulty → List String
  | .Easy =>
      ["define", "list", "identify", "recall", "name", "what is", "who is",
       "label", "match", "choose", "find", "show", "spell", "tell"]
  | .Medium =>
      ["explain", "describe", "compare", "discuss", "why", "how",
       "summarize", "interpret", "classify", "estimate", "organize"]
  | .Hard =>
      ["analyze", "evaluate", "justify", "assess", "critique", "hypothesize",
       "synthesize", "design", "compose", "create", "prove", "formulate"]

/-- `self.ambiguity_patterns`: ambiguity marker phrases, in declaration order. -/
def ambiguityPatterns : List String :=
  ["etc.", "and so on", "various", "several", "many", "some",
   "sometimes", "possibly", "maybe", "approximately", "about",
   "often", "usually", "generally", "mostly", "rarely"]

/-- The keyword test of `_classify_blooms_level`:
`f" {keyword} " in f" {question_lower} " or question_lower.startswith(keyword)`
(`q` is the already lower-cased question). -/
def bloomsKeywordHit (q : List Char) (kw : String) : Bool :=
  containsSeq (' ' :: (kw.data ++ [' '])) (' ' :: (q ++ [' '])) || kw.data.isPrefixOf q

/-- Per-level keyword-hit count of `_classify_blooms_level`
(each keyword contributes at most 1: `scores[level] += 1` per keyword). -/
def bloomsScore (question : String) (level : BloomsLevel) : Nat :=
  (bloomsKeywords level).countP (fun kw => bloomsKeywordHit (pyLower question.data) kw)

/-- `_classify_blooms_level`: return the level with the highest keyword score
(Python `max(scores, key=...)` over the dict-order key list), defaulting to
Knowledge when every level scores zero. -/
def classifyBloomsLevel (question : String) : BloomsLevel :=
  let maxScore := (bloomsLevels.map (bloomsScore question)).foldl Nat.max 0
  if maxScore > 0 then
    pyMaxKey (bloomsScore question) .Knowledge
      [.Comprehension, .Application, .Analysis, .Synthesis, .Evaluation]
  else .Knowledge

/-- Combined per-tier score of `_estimate_difficulty`: raw substring keyword
hits plus the word-count bonus (`word_count > 20` adds 1 to Hard,
`elif word_count > 10` adds 1 to Medium, `else` adds 1 to Easy). -/
def difficultyScore (question : String) (d : Difficulty) : Nat :=
  (difficultyKeywords d).countP (fun kw => containsSeq kw.data (pyLower question.data)) +
    (match d with
     | .Hard => if wordCount question > 20 then 1 else 0
     | .Medium => if wordCount question > 20 then 0
                  else if wordCount question > 10 then 1 else 0
     | .Easy => if wordCount question > 20 then 0
                else if wordCount question > 10 then 0 else 1)

/-- `_estimate_difficulty`: the tier with the highest combined score, by
Python `max(scores, key=...)` over the dict-order key list Easy, Medium, Hard. -/
def estimateDifficulty (question : String) : Difficulty :=
  pyMaxKey (difficultyScore question) .Easy [.Medium, .Hard]

/-- `_detect_ambiguity`: the ambiguity markers found as substrings of the
lower-cased question, in lexicon declaration order, paired with the flag
`len(found_indicators) > 0`. -/
def detectAmbiguity (question : String) : Bool × List String :=
  let found := ambiguityPatterns.filter (fun p => containsSeq p.data (pyLower question.data))
  (found.length > 0, found)

/-- `\w` of Python `re` restricted to ASCII: letters, digits, underscore. -/
def isWordChar (c : Char) : Bool := c.isAlphanum || c == '_'

/-- `\b` before a pattern that starts with a word character: holds at the
start of the text or after a non-word character. -/
def boundaryBefore : Option Char → Bool
  | none => true
  | some c => !isWordChar c

/-- Greedy `X+` where the token following `X+` in the pattern can never
match an `X` character (true for every use below, so no backtracking is
needed): consume one mandatory `X` character and then the maximal run. -/
def matchPlus (p : Char → Bool) : List Char → Option (List Char)
  | [] => none
  | c :: cs => if p c then some (cs.dropWhile p) else none

/-- `re.search` driver: try `matchAt` at every position of the text, feeding
it the previous character so the `\b` assertions can be checked. -/
def searchFrom (matchAt : Option Char → List Char → Bool) :
    Option Char → List Char → Bool
  | prev, [] => matchAt prev []
  | prev, c :: cs => matchAt prev (c :: cs) || searchFrom matchAt (some c) cs

/-- ASCII apostrophe. -/
def apos : Char := Char.ofNat 39

/-- The four quality-issue detectors of `self.quality_issues`, in
declaration order. -/
inductive QualityIssue
  | doubleNegative | leadingQuestion | complexSentence | vaguePronoun
deriving DecidableEq, Repr

/-- Python-side issue name (first component of each `quality_issues` pair). -/
def QualityIssue.pyName : QualityIssue → String
  | .doubleNegative => "double negative"
  | .leadingQuestion => "leading question"
  | .complexSentence => "complex sentence"
  | .vaguePronoun => "vague pronoun"

/-- Declaration order of the detectors. -/
def qualityIssueOrder : List QualityIssue :=
  [.doubleNegative, .leadingQuestion, .complexSentence, .vaguePronoun]

/-- Match of `\b(not\s+un|not\s+in|never\s+un|never\s+in)` at one position:
the alternation is factored as `(not|never)\s+(un|in)`; `not` and `never`
differ at their second character, so at most one alternative matches. -/
def doubleNegativeAt (prev : Option Char) (l : List Char) : Bool :=
  boundaryBefore prev &&
    (match if "not".data.isPrefixOf l then some (l.drop 3)
           else if "never".data.isPrefixOf l then some (l.drop 5)
           else none with
     | none => false
     | some rest =>
       match matchPlus Char.isWhitespace rest with
       | none => false
       | some rest2 => "un".data.isPrefixOf rest2 || "in".data.isPrefixOf rest2)

/-- `re.search(r"\b(not\s+un|not\s+in|never\s+un|never\s+in)", text)`. -/
def hasDoubleNegative (l : List Char) : Bool := searchFrom doubleNegativeAt none l

/-- The three literal alternatives of the leading-question pattern. -/
def leadingPhrases : List (List Char) :=
  [("wouldn".data ++ [apos] ++ "t you".data),
   ("don".data ++ [apos] ++ "t you think".data),
   ("isn".data ++ [apos] ++ "t it true".data)]

/-- Match of `\b(wouldn't you|don't you think|isn't it true)` at one
position. -/
def leadingQuestionAt (prev : Option Char) (l : List Char) : Bool :=
  boundaryBefore prev && leadingPhrases.any (fun p => p.isPrefixOf l)

/-- `re.search` for the leading-question pattern. -/
def hasLeadingQuestion (l : List Char) : Bool := searchFrom leadingQuestionAt none l

/-- A clause-separator character of `[,;]`. -/
def isClauseSep (c : Char) : Bool := c == ',' || c == ';'

/-- `re.search(r"[,;]{3,}", text)`: three consecutive clause separators
occur somewhere (a longer run contains a run of three). -/
def hasComplexSentence : List Char → Bool
  | c1 :: c2 :: c3 :: rest =>
    (isClauseSep c1 && isClauseSep c2 && isClauseSep c3) ||
      hasComplexSentence (c2 :: c3 :: rest)
  | _ => false

/-- The pronoun alternatives of the vague-pronoun pattern. No two can match
at the same position (pairwise, one is never a prefix of the other). -/
def vaguePronouns : List (List Char) :=
  ["it".data, "they".data, "them".data, "this".data, "that".data]

/-- The lookahead body `\s+\w+\s+(is|are|was|were)`: each greedy `+` is
followed by a disjoint character class or literal, so maximal-munch is
exact. -/
def copulaLookahead (l : List Char) : Bool :=
  match matchPlus Char.isWhitespace l with
  | none => false
  | some r1 =>
    match matchPlus isWordChar r1 with
    | none => false
    | some r2 =>
      match matchPlus Char.isWhitespace r2 with
      | none => false
      | some r3 =>
        "is".data.isPrefixOf r3 || "are".data.isPrefixOf r3 ||
          "was".data.isPrefixOf r3 || "were".data.isPrefixOf r3

/-- Match of `\b(it|they|them|this|that)\b(?!\s+\w+\s+(is|are|was|were))`
at one position: a pronoun with word boundaries on both sides whose
negative lookahead fails to match. -/
def vaguePronounAt (prev : Option Char) (l : List Char) : Bool :=
  boundaryBefore prev && vaguePronouns.any (fun p =>
    p.isPrefixOf l &&
      (let rest := l.drop p.length
       (match rest with
        | [] => true
        | c :: _ => !isWordChar c) && !copulaLookahead rest))

/-- `re.search` for the vague-pronoun pattern. -/
def hasVaguePronoun (l : List Char) : Bool := searchFrom vaguePronounAt none l

/-- Whether one detector's pattern matches the lower-cased question. -/
def qualityIssueHit (q : List Char) : QualityIssue → Bool
  | .doubleNegative => hasDoubleNegative q
  | .leadingQuestion => hasLeadingQuestion q
  | .complexSentence => hasComplexSentence q
  | .vaguePronoun => hasVaguePronoun q

/-- `_check_quality_issues`: the detectors whose pattern matches, in
declaration order. -/
def checkQualityIssues (question : String) : List QualityIssue :=
  qualityIssueOrder.filter (qualityIssueHit (pyLower question.data))

/-- Python two-argument `min(a, b)`: `a` when `a <= b`, else `b`. -/
def pyMin (a b : ℚ) : ℚ := if a ≤ b then a else b

/-- Python two-argument `max(a, b)`: `a` when `a >= b`, else `b`. -/
def pyMax (a b : ℚ) : ℚ := if b ≤ a then a else b

/-- The five complexity keywords of `_estimate_cognitive_load`. -/
def complexityKeywords : List String :=
  ["analyze", "evaluate", "compare", "contrast", "synthesize"]

/-- `_estimate_cognitive_load`:
`min(word_count / 10.0 + complexity_factor, 10.0)`, each complexity keyword
counted once by substring presence in the lower-cased question. -/
def estimateCognitiveLoad (question : String) : ℚ :=
  let baseLoad : ℚ := (wordCount question : ℚ) / 10
  let complexityFactor : ℕ :=
    complexityKeywords.countP (fun w => containsSeq w.data (pyLower question.data))
  pyMin (baseLoad + (complexityFactor : ℚ)) 10

/-- `_calculate_question_score`: start at 100, subtract 20 for ambiguity,
10 per quality issue, 15 for fewer than 5 words (`elif` 10 for more than 40
words), floor at 0. -/
def calculateQuestionScore (question : String) (isAmbiguous : Bool)
    (issues : List QualityIssue) : ℚ :=
  let s1 : ℚ := 100
  let s2 : ℚ := if isAmbiguous then s1 - 20 else s1
  let s3 : ℚ := s2 - (issues.length : ℚ) * 10
  let wc := wordCount question
  let s4 : ℚ := if wc < 5 then s3 - 15 else if wc > 40 then s3 - 10 else s3
  pyMax 0 s4

/-- One entry of `results["question_details"]`. -/
structure QuestionDetail where
  number : Nat
  text : String
  blooms_level : BloomsLevel
  difficulty : Difficulty
  ambiguous : Bool
  cognitive_load : ℚ
  word_count : Nat
  quality_score : ℚ
deriving DecidableEq, Repr

/-- One entry of `results["ambiguous_questions"]`. -/
structure AmbiguousEntry where
  question_number : Nat
  question : String
  indicators : List String
deriving DecidableEq, Repr

/-- One entry of `results["quality_issues"]`. -/
structure QualityEntry where
  question_number : Nat
  question : String
  issues : List QualityIssue
deriving DecidableEq, Repr

/-- The `results` dictionary built by `analyze_questions`; the two
distributions are total maps from the respective enumerations to counts. -/
structure AnalysisResult where
  total_questions : Nat
  blooms_distribution : BloomsLevel → Nat
  difficulty_distribution : Difficulty → Nat
  ambiguous_questions : List AmbiguousEntry
  quality_issues : List QualityEntry
  question_details : List QuestionDetail

/-- The body of the `for i, question in enumerate(questions, 1)` loop of
`analyze_questions`: classify, bump the two distribution counters, append
the ambiguity/quality entries when flagged, append the detail record. -/
def analyzeStep (i : Nat) (question : String) (acc : AnalysisResult) :
    AnalysisResult :=
  let bloomsLevel := classifyBloomsLevel question
  let difficulty := estimateDifficulty question
  let amb := detectAmbiguity question
  let issues := checkQualityIssues question
  let cognitiveLoad := estimateCognitiveLoad question
  { acc with
    blooms_distribution := fun l =>
      if l = bloomsLevel then acc.blooms_distribution l + 1
      else acc.blooms_distribution l
    difficulty_distribution := fun d =>
      if d = difficulty then acc.difficulty_distribution d + 1
      else acc.difficulty_distribution d
    ambiguous_questions :=
      if amb.1 then
        acc.ambiguous_questions ++ [⟨i, question, amb.2⟩]
      else acc.ambiguous_questions
    quality_issues :=
      if issues ≠ [] then
        acc.quality_issues ++ [⟨i, question, issues⟩]
      else acc.quality_issues
    question_details := acc.question_details ++
      [{ number := i
         text := question
         blooms_level := bloomsLevel
         difficulty := difficulty
         ambiguous := amb.1
         cognitive_load := cognitiveLoad
         word_count := wordCount question
         quality_score := calculateQuestionScore question amb.1 issues }] }

/-- The loop of `analyze_questions`, with `i` the 1-based position of the
next question. -/
def analyzeLoop (i : Nat) (questions : List String) (acc : AnalysisResult) :
    AnalysisResult :=
  match questions with
  | [] => acc
  | question :: rest => analyzeLoop (i + 1) rest (analyzeStep i question acc)

/-- The initial `results` dictionary of `analyze_questions`: zeroed
distributions, empty listings, `total_questions = len(questions)`. -/
def initResult (questions : List String) : AnalysisResult :=
  { total_questions := questions.length
    blooms_distribution := fun _ => 0
    difficulty_distribution := fun _ => 0
    ambiguous_questions := []
    quality_issues := []
    question_details := [] }

/-- `analyze_questions`: initialise `results` with zeroed distributions and
`total_questions = len(questions)`, then run the loop from position 1. -/
def analyzeQuestions (questions : List String) : AnalysisResult :=
  analyzeLoop 1 questions (initResult questions)

/-- The `type` field of a suggestion. -/
inductive SuggestionType
  | missingLevel | lowRepresentation | difficultyImbalance | ambiguity | qualityIssue
deriving DecidableEq, Repr

/-- The `priority` field of a suggestion. -/
inductive Priority
  | high | medium
deriving DecidableEq, Repr

/-- One suggestion dictionary of `generate_suggestions`, with every
structured field kept; the rendered `message` f-string is presentational
and omitted. `level` carries the `"level"` key (Bloom or difficulty level
name) when present; `question_number` likewise. -/
structure Suggestion where
  stype : SuggestionType
  priority : Priority
  category : String
  level : Option String
  question_number : Option Nat
deriving DecidableEq, Repr

/-- The Bloom-distribution pass of `generate_suggestions`: `count == 0`
emits a high-priority missing-level suggestion, `elif percentage < 10`
(with `percentage = count/total*100 if total > 0 else 0`) a medium-priority
low-representation suggestion. -/
def bloomsSuggestions (total : Nat) (level : BloomsLevel) (count : Nat) :
    List Suggestion :=
  let percentage : ℚ := if total > 0 then (count : ℚ) / (total : ℚ) * 100 else 0
  if count = 0 then
    [⟨.missingLevel, .high, "blooms_taxonomy", some level.pyName, none⟩]
  else if percentage < 10 then
    [⟨.lowRepresentation, .medium, "blooms_taxonomy", some level.pyName, none⟩]
  else []

/-- The difficulty-distribution pass of `generate_suggestions`:
`percentage < 20` emits a medium-priority imbalance suggestion. -/
def difficultySuggestions (total : Nat) (level : Difficulty) (count : Nat) :
    List Suggestion :=
  let percentage : ℚ := if total > 0 then (count : ℚ) / (total : ℚ) * 100 else 0
  if percentage < 20 then
    [⟨.difficultyImbalance, .medium, "difficulty", some level.pyName, none⟩]
  else []

/-- `generate_suggestions`: Bloom gaps in canonical order, then difficulty
gaps, then one high-priority suggestion per ambiguous question, then one
per quality-issue question, in input order. -/
def generateSuggestions (analysis : AnalysisResult) : List Suggestion :=
  let total := analysis.total_questions
  (bloomsLevels.map (fun l =>
      bloomsSuggestions total l (analysis.blooms_distribution l))).flatten ++
  (difficulties.map (fun d =>
      difficultySuggestions total d (analysis.difficulty_distribution d))).flatten ++
  analysis.ambiguous_questions.map (fun item =>
    ⟨.ambiguity, .high, "quality", none, some item.question_number⟩) ++
  analysis.quality_issues.map (fun item =>
    ⟨.qualityIssue, .high, "quality", none, some item.question_number⟩)

/-- Python `max` of a nonempty numeric list (first element as seed). -/
def qListMax : List ℚ → ℚ
  | [] => 0
  | x :: xs => xs.foldl pyMax x

/-- Python `min` of a nonempty numeric list (first element as seed). -/
def qListMin : List ℚ → ℚ
  | [] => 0
  | x :: xs => xs.foldl pyMin x

/-- Round-half-to-even at 2 decimal places: model of Python `round(x, 2)`
on the exact rational value (float representation artifacts are not
modelled; no claim depends on the rounded digits). -/
def round2 (q : ℚ) : ℚ :=
  let scaled := q * 100
  let f : ℤ := Int.floor scaled
  let frac : ℚ := scaled - (f : ℚ)
  let r : ℤ :=
    if frac < 1 / 2 then f
    else if frac > 1 / 2 then f + 1
    else if f % 2 = 0 then f else f + 1
  (r : ℚ) / 100

/-- `_calculate_blooms_score`: representation share of the six levels plus
a balance term `50 - (max percentage - min percentage)`, clamped at 0. -/
def calculateBloomsScore (distribution : BloomsLevel → Nat) (total : Nat) : ℚ :=
  let representedLevels : ℕ := bloomsLevels.countP (fun l => distribution l > 0)
  let representationScore : ℚ := ((representedLevels : ℚ) / 6) * 50
  let percentages : List ℚ :=
    bloomsLevels.map (fun l => (distribution l : ℚ) / (total : ℚ) * 100)
  let balanceScore : ℚ := 50 - (qListMax percentages - qListMin percentages)
  pyMax 0 (representationScore + balanceScore)

/-- The ideal difficulty percentages of `_calculate_difficulty_score`. -/
def idealPercentages : Difficulty → ℚ
  | .Easy => 30
  | .Medium => 40
  | .Hard => 30

/-- `_calculate_difficulty_score`: start at 100 and subtract half the
absolute deviation from each ideal percentage, clamped at 0. -/
def calculateDifficultyScore (distribution : Difficulty → Nat) (total : Nat) : ℚ :=
  let score : ℚ := 100 - (difficulties.map (fun level =>
    let actualPct : ℚ :=
      if total > 0 then (distribution level : ℚ) / (total : ℚ) * 100 else 0
    |actualPct - idealPercentages level| * (1 / 2))).sum
  pyMax 0 score

/-- `_calculate_quality_score`: start at 100 and subtract half the
percentage of ambiguous and of quality-issue questions, clamped at 0. -/
def calculateQualityScore (analysis : AnalysisResult) (total : Nat) : ℚ :=
  let ambiguousCount := analysis.ambiguous_questions.length
  let issuesCount := analysis.quality_issues.length
  let s1 : ℚ := 100 -
    (if total > 0 then ((ambiguousCount : ℚ) / (total : ℚ) * 100) * (1 / 2) else 0)
  let s2 : ℚ := s1 -
    (if total > 0 then ((issuesCount : ℚ) / (total : ℚ) * 100) * (1 / 2) else 0)
  pyMax 0 s2

/-- `_generate_feedback`: one fixed sentence per grade bucket. -/
def generateFeedback (score : ℚ) : String :=
  if score ≥ 90 then
    "Excellent question paper with comprehensive cognitive level coverage and good balance."
  else if score ≥ 75 then
    "Good question paper. Minor improvements suggested for better balance."
  else if score ≥ 60 then
    "Fair question paper. Several improvements needed for comprehensive coverage."
  else
    "Significant improvements needed. Review suggestions carefully."

/-- The dictionary returned by `calculate_overall_score`. The three
component keys are absent from the `total_questions == 0` early return, so
they are `Option`-valued here. -/
structure OverallResult where
  score : ℚ
  grade : String
  blooms_score : Option ℚ
  difficulty_score : Option ℚ
  quality_score : Option ℚ
  feedback : String
deriving DecidableEq, Repr

/-- `calculate_overall_score`: short-circuit on `total_questions == 0`,
otherwise the 0.4/0.3/0.3-weighted component average with its grade
thresholds. -/
def calculateOverallScore (analysis : AnalysisResult) : OverallResult :=
  let totalQuestions := analysis.total_questions
  if totalQuestions = 0 then
    { score := 0, grade := "N/A"
      blooms_score := none, difficulty_score := none, quality_score := none
      feedback := "No questions to analyze" }
  else
    let bloomsScoreV := calculateBloomsScore analysis.blooms_distribution totalQuestions
    let difficultyScoreV := calculateDifficultyScore analysis.difficulty_distribution totalQuestions
    let qualityScoreV := calculateQualityScore analysis totalQuestions
    let overallScore : ℚ :=
      bloomsScoreV * (4 / 10) + difficultyScoreV * (3 / 10) + qualityScoreV * (3 / 10)
    let grade : String :=
      if overallScore ≥ 90 then "Excellent"
      else if overallScore ≥ 75 then "Good"
      else if overallScore ≥ 60 then "Fair"
      else "Needs Improvement"
    { score := round2 overallScore, grade := grade
      blooms_score := some (round2 bloomsScoreV)
      difficulty_score := some (round2 difficultyScoreV)
      quality_score := some (round2 qualityScoreV)
      feedback := generateFeedback overallScore }

/-- The per-question fields of a `QuestionDetail` apart from the 1-based
ordinal. -/
structure QuestionFields where
  text : String
  blooms_level : BloomsLevel
  difficulty : Difficulty
  ambiguous : Bool
  cognitive_load : ℚ
  word_count : Nat
  quality_score : ℚ
deriving DecidableEq, Repr

/-- Forget the ordinal of a record. -/
def QuestionDetail.fields (d : QuestionDetail) : QuestionFields :=
  ⟨d.text, d.blooms_level, d.difficulty, d.ambiguous, d.cognitive_load,
   d.word_count, d.quality_score⟩

/-- The ordinal-independent part of the record `analyze_questions` computes
for one question. -/
def questionFields (question : String) : QuestionFields :=
  { text := question
    blooms_level := classifyBloomsLevel question
    difficulty := estimateDifficulty question
    ambiguous := (detectAmbiguity question).1
    cognitive_load := estimateCognitiveLoad question
    word_count := wordCount question
    quality_score := calculateQuestionScore question (detectAmbiguity question).1
      (checkQualityIssues question) }

/-- The Scenario-B question of the specification. -/
def scenarioB : String :=
  "Analyze the various causes of inflation and evaluate several policy responses."

/-! ## Theorems -/

/-- C1, counterexample: for the empty input sequence (an `AnalysisResult`
with `total_questions == 0`) the suggestion generator does not return the
empty sequence — the `count == 0` branch and the `percentage < 20` branch
fire even when the total is zero. -/
theorem C1_counterexample : generateSuggestions (analyzeQuestions []) ≠ [] := by
  decide

/-- C1, amended: for an `AnalysisResult` with `total_questions == 0` (empty
input sequence), `generate_suggestions` returns exactly nine suggestions:
a high-priority missing-level suggestion for each of the six Bloom levels
in canonical order, followed by a medium-priority difficulty-imbalance
suggestion for each of the three difficulty tiers in order. -/
theorem C1_empty_input_suggestions :
    generateSuggestions (analyzeQuestions []) =
      bloomsLevels.map (fun l =>
        ⟨.missingLevel, .high, "blooms_taxonomy", some l.pyName, none⟩) ++
      difficulties.map (fun d =>
        ⟨.difficultyImbalance, .medium, "difficulty", some d.pyName, none⟩) := by
  decide

/-- C2, counterexample: on the question `"explain"` the Easy and Medium
tiers tie for the highest combined score (the Hard tier scores lower), yet
`_estimate_difficulty` returns Easy, not the last maximal tier Medium. -/
theorem C2_counterexample :
    difficultyScore "explain" Difficulty.Easy = difficultyScore "explain" Difficulty.Medium ∧
    difficultyScore "explain" Difficulty.Hard < difficultyScore "explain" Difficulty.Easy ∧
    estimateDifficulty "explain" = Difficulty.Easy := by
  decide

/-- C2, amended: `_estimate_difficulty` returns a tier of maximal combined
score, and among the maximal tiers the *first* in the enumeration order
Easy, Medium, Hard — Easy wins ties against Medium and Hard, and Medium
wins ties against Hard (Python `max` replaces the running best only on a
strictly greater score). -/
theorem C2_first_maximal_tier (question : String) :
    (∀ d, difficultyScore question d ≤ difficultyScore question (estimateDifficulty question)) ∧
    (∀ d, difficultyScore question d = difficultyScore question (estimateDifficulty question) →
      diffIdx (estimateDifficulty question) ≤ diffIdx d) := by
  simp only [estimateDifficulty, pyMaxKey]
  split_ifs <;> refine ⟨fun d => ?_, fun d hd => ?_⟩ <;> cases d <;>
    simp_all [diffIdx] <;> omega

/-- C2, witness: the amended tie-break at the concrete input `"explain"`. -/
theorem C2_first_maximal_tier_witness :
    diffIdx (estimateDifficulty "explain") ≤ diffIdx Difficulty.Medium :=
  (C2_first_maximal_tier "explain").2 Difficulty.Medium (by decide)

/-- `pyMaxKey` returns a maximal score: every key of `x :: l` scores at
most the result. -/
theorem pyMaxKey_le {α : Type} (f : α → Nat) :
    ∀ (l : List α) (x y : α), y ∈ x :: l → f y ≤ f (pyMaxKey f x l) := by
  intro l
  induction l with
  | nil =>
    intro x y hy
    simp only [List.mem_singleton] at hy
    subst hy
    simp [pyMaxKey]
  | cons z zs ih =>
    intro x y hy
    simp only [pyMaxKey]
    split_ifs with h
    · rcases List.mem_cons.1 hy with rfl | hy2
      · exact le_trans (le_of_lt h) (ih z z (List.mem_cons_self _ _))
      · exact ih z y hy2
    · rcases List.mem_cons.1 hy with rfl | hy2
      · exact ih y y (List.mem_cons_self _ _)
      · rcases List.mem_cons.1 hy2 with rfl | hy3
        · exact le_trans (Nat.le_of_not_lt h) (ih x x (List.mem_cons_self _ _))
        · exact ih x y (List.mem_cons.2 (Or.inr hy3))

/-- `pyMaxKey` returns the *first* maximal key: for a rank function `r`
that is strictly increasing along `x :: l`, every key of `x :: l` that ties
with the result's score has rank at least the result's (a later key
replaces the running best only on a strictly greater score). -/
theorem pyMaxKey_first {α : Type} (f r : α → Nat) :
    ∀ (l : List α) (x : α), (∀ z ∈ l, r x < r z) →
      l.Pairwise (fun a b => r a < r b) →
      ∀ y ∈ x :: l, f y = f (pyMaxKey f x l) → r (pyMaxKey f x l) ≤ r y := by
  intro l
  induction l with
  | nil =>
    intro x _ _ y hy _
    simp only [List.mem_singleton] at hy
    subst hy
    simp [pyMaxKey]
  | cons z zs ih =>
    intro x hlt hpw y hy hf
    simp only [pyMaxKey] at hf ⊢
    have hzzs := List.pairwise_cons.1 hpw
    split_ifs at hf ⊢ with h
    · rcases List.mem_cons.1 hy with rfl | hy2
      · exfalso
        have hzres : f z ≤ f (pyMaxKey f z zs) :=
          pyMaxKey_le f zs z z (List.mem_cons_self _ _)
        omega
      · exact ih z hzzs.1 hzzs.2 y hy2 hf
    · have hxzs : ∀ w ∈ zs, r x < r w := fun w hw => hlt w (List.mem_cons.2 (Or.inr hw))
      rcases List.mem_cons.1 hy with rfl | hy2
      · exact ih y hxzs hzzs.2 y (List.mem_cons_self _ _) hf
      · rcases List.mem_cons.1 hy2 with rfl | hy3
        · have hxle : f x ≤ f (pyMaxKey f x zs) :=
            pyMaxKey_le f zs x x (List.mem_cons_self _ _)
          have hzx : f y ≤ f x := Nat.le_of_not_lt h
          have hfx : f x = f (pyMaxKey f x zs) := by omega
          have hres := ih x hxzs hzzs.2 x (List.mem_cons_self _ _) hfx
          have hrxz : r x < r y := hlt y (List.mem_cons_self _ _)
          omega
        · exact ih x hxzs hzzs.2 y (List.mem_cons.2 (Or.inr hy3)) hf

/-- The first-maximal tie-break of `_classify_blooms_level`, for every
question: the returned level's keyword score is maximal, and its canonical
index is least among the levels attaining the maximum. -/
theorem classifyBloomsLevel_first_max (question : String) :
    (∀ l, bloomsScore question l ≤ bloomsScore question (classifyBloomsLevel question)) ∧
    (∀ l, bloomsScore question l = bloomsScore question (classifyBloomsLevel question) →
      bloomsIdx (classifyBloomsLevel question) ≤ bloomsIdx l) := by
  simp only [classifyBloomsLevel]
  split_ifs with h
  · constructor
    · intro l
      exact pyMaxKey_le (bloomsScore question) _ .Knowledge l (by cases l <;> decide)
    · intro l hl
      exact pyMaxKey_first (bloomsScore question) bloomsIdx _ .Knowledge
        (by decide) (by decide) l (by cases l <;> decide) hl
  · have h0 : ∀ l, bloomsScore question l = 0 := by
      simp only [bloomsLevels, List.map, List.foldl, Nat.not_lt, Nat.le_zero,
        Nat.max_eq_zero_iff] at h
      intro l
      cases l <;> omega
    constructor
    · intro l
      simp [h0]
    · intro l _
      exact Nat.zero_le _

/-- C4: when cognitive levels tie for the highest keyword-hit count,
`_classify_blooms_level` returns the earliest tied level in the canonical
order Knowledge, Comprehension, Application, Analysis, Synthesis,
Evaluation (first conjunct, stated for every question: the result's score
is maximal and its canonical index is least among the maximal levels); in
particular the Scenario-B question scores 1 at Analysis and 1 at
Evaluation, is classified Analysis, and is ambiguous with markers
including "various" and "several". -/
theorem C4_blooms_tie_break :
    (∀ question : String,
      (∀ l, bloomsScore question l ≤ bloomsScore question (classifyBloomsLevel question)) ∧
      (∀ l, bloomsScore question l = bloomsScore question (classifyBloomsLevel question) →
        bloomsIdx (classifyBloomsLevel question) ≤ bloomsIdx l)) ∧
    classifyBloomsLevel scenarioB = .Analysis ∧
    bloomsScore scenarioB .Analysis = 1 ∧
    bloomsScore scenarioB .Evaluation = 1 ∧
    (detectAmbiguity scenarioB).1 = true ∧
    "various" ∈ (detectAmbiguity scenarioB).2 ∧
    "several" ∈ (detectAmbiguity scenarioB).2 :=
  ⟨classifyBloomsLevel_first_max, by decide, by decide, by decide, by decide,
    by decide, by decide⟩

/-- C4, witness: the tie-break at the Scenario-B question, where Analysis
and Evaluation tie: the returned level's canonical index is at most
Evaluation's. -/
theorem C4_blooms_tie_break_witness :
    bloomsIdx (classifyBloomsLevel scenarioB) ≤ bloomsIdx BloomsLevel.Evaluation :=
  (C4_blooms_tie_break.1 scenarioB).2 BloomsLevel.Evaluation (by decide)

/-- C7: if `total_questions == 0`, `calculate_overall_score` returns score
0, grade `"N/A"` and the fixed "No questions to analyze" feedback string,
with none of the three component scores computed. -/
theorem C7_zero_total_short_circuit (analysis : AnalysisResult)
    (h : analysis.total_questions = 0) :
    calculateOverallScore analysis =
      { score := 0, grade := "N/A", blooms_score := none, difficulty_score := none,
        quality_score := none, feedback := "No questions to analyze" } := by
  simp [calculateOverallScore, h]

/-- C7, witness: the short-circuit on the analysis of the empty sequence. -/
theorem C7_zero_total_short_circuit_witness :
    calculateOverallScore (analyzeQuestions []) =
      { score := 0, grade := "N/A", blooms_score := none, difficulty_score := none,
        quality_score := none, feedback := "No questions to analyze" } :=
  C7_zero_total_short_circuit (analyzeQuestions []) rfl

/-- The loop of `analyze_questions` never changes `total_questions`. -/
theorem analyzeLoop_total (qs : List String) :
    ∀ (i : Nat) (acc : AnalysisResult),
      (analyzeLoop i qs acc).total_questions = acc.total_questions := by
  induction qs with
  | nil => intro i acc; rfl
  | cons q rest ih => intro i acc; exact ih (i + 1) (analyzeStep i q acc)

/-- `total_questions` of an analysis is the input length. -/
theorem analyzeQuestions_total (questions : List String) :
    (analyzeQuestions questions).total_questions = questions.length :=
  analyzeLoop_total questions 1 (initResult questions)

/-- Loop invariant: each Bloom counter counts the questions classified at
that level. -/
theorem analyzeLoop_blooms (qs : List String) :
    ∀ (i : Nat) (acc : AnalysisResult) (l : BloomsLevel),
      (analyzeLoop i qs acc).blooms_distribution l =
        acc.blooms_distribution l +
          qs.countP (fun q => decide (classifyBloomsLevel q = l)) := by
  induction qs with
  | nil => intro i acc l; simp [analyzeLoop]
  | cons q rest ih =>
    intro i acc l
    have h : analyzeLoop i (q :: rest) acc =
        analyzeLoop (i + 1) rest (analyzeStep i q acc) := rfl
    rw [h, ih]
    by_cases hql : classifyBloomsLevel q = l
    · subst hql
      simp [analyzeStep, List.countP_cons]
      omega
    · simp [analyzeStep, List.countP_cons, hql, Ne.symm hql]

/-- The Bloom distribution of an analysis counts classifications. -/
theorem analyzeQuestions_blooms (questions : List String) (l : BloomsLevel) :
    (analyzeQuestions questions).blooms_distribution l =
      questions.countP (fun q => decide (classifyBloomsLevel q = l)) := by
  simpa [initResult] using analyzeLoop_blooms questions 1 (initResult questions) l

/-- Loop invariant: each difficulty counter counts the questions estimated
at that tier. -/
theorem analyzeLoop_diff (qs : List String) :
    ∀ (i : Nat) (acc : AnalysisResult) (d : Difficulty),
      (analyzeLoop i qs acc).difficulty_distribution d =
        acc.difficulty_distribution d +
          qs.countP (fun q => decide (estimateDifficulty q = d)) := by
  induction qs with
  | nil => intro i acc d; simp [analyzeLoop]
  | cons q rest ih =>
    intro i acc d
    have h : analyzeLoop i (q :: rest) acc =
        analyzeLoop (i + 1) rest (analyzeStep i q acc) := rfl
    rw [h, ih]
    by_cases hqd : estimateDifficulty q = d
    · subst hqd
      simp [analyzeStep, List.countP_cons]
      omega
    · simp [analyzeStep, List.countP_cons, hqd, Ne.symm hqd]

/-- The difficulty distribution of an analysis counts estimations. -/
theorem analyzeQuestions_diff (questions : List String) (d : Difficulty) :
    (analyzeQuestions questions).difficulty_distribution d =
      questions.countP (fun q => decide (estimateDifficulty q = d)) := by
  simpa [initResult] using analyzeLoop_diff questions 1 (initResult questions) d

/-- Loop invariant: the detail records, with ordinals forgotten, are the
per-question field records of the processed questions, in order. -/
theorem analyzeLoop_fields (qs : List String) :
    ∀ (i : Nat) (acc : AnalysisResult),
      (analyzeLoop i qs acc).question_details.map QuestionDetail.fields =
        acc.question_details.map QuestionDetail.fields ++ qs.map questionFields := by
  induction qs with
  | nil => intro i acc; simp [analyzeLoop]
  | cons q rest ih =>
    intro i acc
    have h : analyzeLoop i (q :: rest) acc =
        analyzeLoop (i + 1) rest (analyzeStep i q acc) := rfl
    rw [h, ih]
    simp [analyzeStep, QuestionDetail.fields, questionFields]

/-- The detail records of an analysis, with ordinals forgotten, are the
per-question field records of the input, in order. -/
theorem analyzeQuestions_fields (questions : List String) :
    (analyzeQuestions questions).question_details.map QuestionDetail.fields =
      questions.map questionFields := by
  have h := analyzeLoop_fields questions 1 (initResult questions)
  simpa [analyzeQuestions, initResult] using h

/-- Loop invariant: each processed question adds exactly one to the Bloom
counters in total. -/
theorem analyzeLoop_blooms_sum (qs : List String) :
    ∀ (i : Nat) (acc : AnalysisResult),
      (bloomsLevels.map (analyzeLoop i qs acc).blooms_distribution).sum =
        (bloomsLevels.map acc.blooms_distribution).sum + qs.length := by
  induction qs with
  | nil => intro i acc; simp [analyzeLoop]
  | cons q rest ih =>
    intro i acc
    have h : analyzeLoop i (q :: rest) acc =
        analyzeLoop (i + 1) rest (analyzeStep i q acc) := rfl
    rw [h, ih]
    have hstep : (bloomsLevels.map (analyzeStep i q acc).blooms_distribution).sum =
        (bloomsLevels.map acc.blooms_distribution).sum + 1 := by
      cases hq : classifyBloomsLevel q <;>
        simp [analyzeStep, bloomsLevels, hq] <;> omega
    rw [hstep]
    simp [List.length_cons]
    omega

/-- Loop invariant: each processed question adds exactly one to the
difficulty counters in total. -/
theorem analyzeLoop_diff_sum (qs : List String) :
    ∀ (i : Nat) (acc : AnalysisResult),
      (difficulties.map (analyzeLoop i qs acc).difficulty_distribution).sum =
        (difficulties.map acc.difficulty_distribution).sum + qs.length := by
  induction qs with
  | nil => intro i acc; simp [analyzeLoop]
  | cons q rest ih =>
    intro i acc
    have h : analyzeLoop i (q :: rest) acc =
        analyzeLoop (i + 1) rest (analyzeStep i q acc) := rfl
    rw [h, ih]
    have hstep : (difficulties.map (analyzeStep i q acc).difficulty_distribution).sum =
        (difficulties.map acc.difficulty_distribution).sum + 1 := by
      cases hq : estimateDifficulty q <;>
        simp [analyzeStep, difficulties, hq] <;> omega
    rw [hstep]
    simp [List.length_cons]
    omega

/-- C5: for every input sequence, the Bloom-level counts and the
difficulty counts each sum to `total_questions`, which equals the number
of detail records. -/
theorem C5_distribution_sums (questions : List String) :
    (bloomsLevels.map (analyzeQuestions questions).blooms_distribution).sum =
        (analyzeQuestions questions).total_questions ∧
    (difficulties.map (analyzeQuestions questions).difficulty_distribution).sum =
        (analyzeQuestions questions).total_questions ∧
    (analyzeQuestions questions).question_details.length =
        (analyzeQuestions questions).total_questions := by
  refine ⟨?_, ?_, ?_⟩
  · have hsum := analyzeLoop_blooms_sum questions 1 (initResult questions)
    rw [analyzeQuestions_total]
    simpa [analyzeQuestions, initResult, bloomsLevels] using hsum
  · have hsum := analyzeLoop_diff_sum questions 1 (initResult questions)
    rw [analyzeQuestions_total]
    simpa [analyzeQuestions, initResult, difficulties] using hsum
  · have hlen := congrArg List.length (analyzeQuestions_fields questions)
    simpa [analyzeQuestions_total] using hlen

/-- C6: analyzing a permutation of the input yields the *identically*
permuted detail records and the same distributions. The first two
conjuncts give the positional correspondence: for either input, the
ordinal-stripped record list is the input list mapped elementwise through
the per-question function, so any permutation carrying `qs` to `qs'`
carries the records of `qs` to the records of `qs'` position by position
(the same per-record fields apart from the 1-based ordinal). The remaining
conjuncts state the permutation of the stripped record lists and the
unchanged Bloom and difficulty distributions. -/
theorem C6_permutation_invariance (qs qs' : List String) (h : qs.Perm qs') :
    (analyzeQuestions qs).question_details.map QuestionDetail.fields =
      qs.map questionFields ∧
    (analyzeQuestions qs').question_details.map QuestionDetail.fields =
      qs'.map questionFields ∧
    ((analyzeQuestions qs).question_details.map QuestionDetail.fields).Perm
      ((analyzeQuestions qs').question_details.map QuestionDetail.fields) ∧
    (∀ l, (analyzeQuestions qs).blooms_distribution l =
      (analyzeQuestions qs').blooms_distribution l) ∧
    (∀ d, (analyzeQuestions qs).difficulty_distribution d =
      (analyzeQuestions qs').difficulty_distribution d) := by
  refine ⟨analyzeQuestions_fields qs, analyzeQuestions_fields qs', ?_,
    fun l => ?_, fun d => ?_⟩
  · rw [analyzeQuestions_fields, analyzeQuestions_fields]
    exact h.map questionFields
  · rw [analyzeQuestions_blooms, analyzeQuestions_blooms]
    exact h.countP_eq _
  · rw [analyzeQuestions_diff, analyzeQuestions_diff]
    exact h.countP_eq _

/-- C6, witness: swapping a concrete two-question input. The records of
the first input are its questions mapped elementwise, the stripped record
lists of the two inputs are permutations of one another, and the Knowledge
counter is preserved. -/
theorem C6_permutation_invariance_witness :
    (analyzeQuestions ["explain", "Define DNA."]).question_details.map
        QuestionDetail.fields =
      (["explain", "Define DNA."] : List String).map questionFields ∧
    ((analyzeQuestions ["explain", "Define DNA."]).question_details.map
        QuestionDetail.fields).Perm
      ((analyzeQuestions ["Define DNA.", "explain"]).question_details.map
        QuestionDetail.fields) ∧
    (analyzeQuestions ["explain", "Define DNA."]).blooms_distribution
        BloomsLevel.Knowledge =
      (analyzeQuestions ["Define DNA.", "explain"]).blooms_distribution
        BloomsLevel.Knowledge :=
  ⟨(C6_permutation_invariance ["explain", "Define DNA."] ["Define DNA.", "explain"]
      (by decide)).1,
    (C6_permutation_invariance ["explain", "Define DNA."] ["Define DNA.", "explain"]
      (by decide)).2.2.1,
    (C6_permutation_invariance ["explain", "Define DNA."] ["Define DNA.", "explain"]
      (by decide)).2.2.2.1 BloomsLevel.Knowledge⟩

/-- The analysis of a single question produces exactly one detail record,
with ordinal 1 and the per-question classifier outputs as fields. -/
theorem analyzeQuestions_single (q : String) :
    (analyzeQuestions [q]).question_details =
      [{ number := 1, text := q,
         blooms_level := classifyBloomsLevel q,
         difficulty := estimateDifficulty q,
         ambiguous := (detectAmbiguity q).1,
         cognitive_load := estimateCognitiveLoad q,
         word_count := wordCount q,
         quality_score := calculateQuestionScore q (detectAmbiguity q).1
           (checkQualityIssues q) }] := rfl

/-- Per-question score of the Scenario-A question: not ambiguous, no
quality issues, 4 words, so only the short-question penalty applies. -/
theorem quality_score_scenarioA :
    calculateQuestionScore "Define the term algorithm."
      (detectAmbiguity "Define the term algorithm.").1
      (checkQualityIssues "Define the term algorithm.") = 85 := by
  show pyMax 0 ((100 : ℚ) - ((0 : ℕ) : ℚ) * 10 - 15) = 85
  norm_num [pyMax]

/-- Cognitive load of the Scenario-A question: 4 words, no complexity
keywords. -/
theorem cognitive_load_scenarioA :
    estimateCognitiveLoad "Define the term algorithm." = 2 / 5 := by
  show pyMin ((((4 : ℕ) : ℚ)) / 10 + ((0 : ℕ) : ℚ)) 10 = 2 / 5
  norm_num [pyMin]

/-- C3, counterexample: the single-question input
`["Define the term algorithm."]` yields quality_score 85, not 100 — the
question has 4 words, so the short-question penalty applies. -/
theorem C3_counterexample :
    (analyzeQuestions ["Define the term algorithm."]).question_details.map
      QuestionDetail.quality_score ≠ [100] := by
  rw [analyzeQuestions_single]
  simp only [List.map, QuestionDetail.quality_score, quality_score_scenarioA]
  intro hc
  have h85 : (85 : ℚ) = 100 := by injection hc
  norm_num at h85

/-- C3, amended: for the input `["Define the term algorithm."]` the
resulting record has cognitive_level Knowledge, difficulty Easy,
is_ambiguous false, word count 4 and quality_score 85.0 (the short-question
penalty fires because the question has fewer than 5 words). -/
theorem C3_scenarioA_record :
    (analyzeQuestions ["Define the term algorithm."]).question_details =
      [{ number := 1, text := "Define the term algorithm.",
         blooms_level := .Knowledge, difficulty := .Easy, ambiguous := false,
         cognitive_load := 2 / 5, word_count := 4, quality_score := 85 }] := by
  rw [analyzeQuestions_single]
  have hb : classifyBloomsLevel "Define the term algorithm." =
      BloomsLevel.Knowledge := by decide
  have hd : estimateDifficulty "Define the term algorithm." =
      Difficulty.Easy := by decide
  have hw : wordCount "Define the term algorithm." = 4 := by decide
  rw [hb, hd, hw, cognitive_load_scenarioA, quality_score_scenarioA]
  have ha : (detectAmbiguity "Define the term algorithm.").1 = false := by decide
  rw [ha]

/-- C8: the empty-string question yields word_count 0, level Knowledge,
difficulty Easy, not ambiguous, cognitive_load 0 and quality_score 85.0
(only the short-question penalty applies). -/
theorem C8_empty_string_record :
    (analyzeQuestions [""]).question_details =
      [{ number := 1, text := "", blooms_level := .Knowledge,
         difficulty := .Easy, ambiguous := false, cognitive_load := 0,
         word_count := 0, quality_score := 85 }] := by
  rw [analyzeQuestions_single]
  have hb : classifyBloomsLevel "" = BloomsLevel.Knowledge := by decide
  have hd : estimateDifficulty "" = Difficulty.Easy := by decide
  have hw : wordCount "" = 0 := by decide
  have hcl : estimateCognitiveLoad "" = 0 := by
    show pyMin ((((0 : ℕ) : ℚ)) / 10 + ((0 : ℕ) : ℚ)) 10 = 0
    norm_num [pyMin]
  have hqs : calculateQuestionScore "" (detectAmbiguity "").1
      (checkQualityIssues "") = 85 := by
    show pyMax 0 ((100 : ℚ) - ((0 : ℕ) : ℚ) * 10 - 15) = 85
    norm_num [pyMax]
  rw [hb, hd, hw, hcl, hqs]
  have ha : (detectAmbiguity "").1 = false := by decide
  rw [ha]

/-- The per-question score never goes below 0: the final clamp. -/
theorem calculateQuestionScore_nonneg (q : String) (amb : Bool)
    (issues : List QualityIssue) : 0 ≤ calculateQuestionScore q amb issues := by
  have hn : (0 : ℚ) ≤ (issues.length : ℚ) := Nat.cast_nonneg _
  simp only [calculateQuestionScore, pyMax]
  split_ifs <;> linarith

/-- The per-question score never exceeds 100: only deductions occur. -/
theorem calculateQuestionScore_le (q : String) (amb : Bool)
    (issues : List QualityIssue) : calculateQuestionScore q amb issues ≤ 100 := by
  have hn : (0 : ℚ) ≤ (issues.length : ℚ) := Nat.cast_nonneg _
  simp only [calculateQuestionScore, pyMax]
  split_ifs <;> linarith

/-- Cognitive load is nonnegative: both summands are. -/
theorem estimateCognitiveLoad_nonneg (q : String) :
    0 ≤ estimateCognitiveLoad q := by
  have h1 : (0 : ℚ) ≤ (wordCount q : ℚ) := Nat.cast_nonneg _
  have h2 : (0 : ℚ) ≤
      ((complexityKeywords.countP
        (fun w => containsSeq w.data (pyLower q.data))) : ℚ) := Nat.cast_nonneg _
  simp only [estimateCognitiveLoad, pyMin]
  split_ifs <;> linarith

/-- Cognitive load is clamped at 10. -/
theorem estimateCognitiveLoad_le (q : String) :
    estimateCognitiveLoad q ≤ 10 := by
  simp only [estimateCognitiveLoad, pyMin]
  split_ifs <;> linarith

/-- C9: for every question string, the per-question quality score lies in
[0, 100] and the cognitive load lies in [0, 10]. -/
theorem C9_per_question_bounds (question : String) :
    (0 ≤ calculateQuestionScore question (detectAmbiguity question).1
        (checkQualityIssues question) ∧
      calculateQuestionScore question (detectAmbiguity question).1
        (checkQualityIssues question) ≤ 100) ∧
    (0 ≤ estimateCognitiveLoad question ∧ estimateCognitiveLoad question ≤ 10) :=
  ⟨⟨calculateQuestionScore_nonneg _ _ _, calculateQuestionScore_le _ _ _⟩,
    ⟨estimateCognitiveLoad_nonneg _, estimateCognitiveLoad_le _⟩⟩

/-- C10: for every question string, the per-question quality score is at
least 25: at most 20 is deducted for ambiguity, at most 40 for quality
issues (each of the four detectors contributes at most one 10-point
deduction), and at most 15 for length, so the floor-at-zero clamp is never
reached. -/
theorem C10_quality_score_floor (question : String) :
    25 ≤ calculateQuestionScore question (detectAmbiguity question).1
      (checkQualityIssues question) := by
  have h4 : (checkQualityIssues question).length ≤ 4 := by
    have hle := List.length_filter_le
      (qualityIssueHit (pyLower question.data)) qualityIssueOrder
    simpa [checkQualityIssues, qualityIssueOrder] using hle
  have hlen : ((checkQualityIssues question).length : ℚ) ≤ 4 := by
    exact_mod_cast h4
  simp only [calculateQuestionScore, pyMax]
  split_ifs <;> linarith

end QPaper
